import Mathlib

/-!
Verification development for the edge-runtime orchestration core.

The development shallowly embeds three source files:

* `crates/base/src/rt_worker/worker.rs` — the `Worker` lifecycle
  controller.  The externally visible behaviour of the spawned task is modelled
  as a trace (a `List Action`) of channel sends, logging calls and calls
  into collaborator components, produced by a pure function
  `Worker.start`.  External nondeterminism (whether the engine boots,
  whether supervisor creation succeeds, the result of the completion routine,
  whether the pool receiver is still alive) is resolved by an `Env`
  record passed to the function.
* `crates/sb_core/lib.rs` — the runtime-metrics surface
  (`RuntimeMetricSource.get_heap_statistics`, `op_runtime_metrics`).
  The V8 isolate handle is external; its interrupt mechanism is modelled
  by oracle fields on `WorkerMetricSource`.
* `crates/node/ops/crypto/dh.rs` — classic Diffie-Hellman over the
  well-known MODP groups, with `BigUint` flattened to `Nat` and the
  random generator modelled as an oracle.
-/

namespace EdgeRuntime

/- ## Data model: worker lifecycle (worker.rs) -/

/-- Modelled from the spec: the supervisor policy is an immutable,
copyable tag selecting governance behaviour — a whole-lifetime CPU budget
or a per-request budget.  (`SupervisorPolicy` lives in
`rt_worker/worker_pool.rs`, which is not among the provided sources.)
The default policy is represented by the first constructor. -/
inductive SupervisorPolicy where
  | wholeLifetime
  | perRequest
deriving DecidableEq, Repr, Inhabited

/-- Worker runtime configuration, reduced to the one observable the
lifecycle controller reads: `conf.is_user_worker()` (whether the
instance is tenant-isolated). -/
structure WorkerConf where
  is_user_worker : Bool
deriving DecidableEq, Repr

/-- The configuration passed to `Worker::start`.  `timing` is the
timing/telemetry payload removed by `opts.timing.take()` (payload
flattened to `Nat`); `conf` is the runtime configuration; `rest`
opaquely stands for every other field of `WorkerContextInitOpts`,
so that claims about the rest of the configuration being unchanged
are statable. -/
structure WorkerContextInitOpts where
  timing : Option Nat
  conf : WorkerConf
  rest : Nat
deriving DecidableEq, Repr

/-- Terminal events, from `event_worker::events::WorkerEvents` (not among
the provided sources; the variants and fields used by `worker.rs` are the
`Shutdown` and `UncaughtException` variants carrying `cpu_time_used`).
`BootFailure` and `Other` stand for the remaining variants. -/
inductive WorkerEvents where
  | Shutdown (cpu_time_used : Nat)
  | UncaughtException (cpu_time_used : Nat)
  | BootFailure (msg : String)
  | Other
deriving DecidableEq, Repr

/-- The `Worker` record of `worker.rs`, with channel endpoints reduced to
presence booleans, `Uuid` to `Nat`, and `Instant` to `Nat`. -/
structure Worker where
  worker_boot_start_time : Nat
  events_msg_tx : Bool
  pool_msg_tx : Bool
  cancel : Bool
  event_metadata : Nat
  worker_key : Option Nat
  supervisor_policy : Option SupervisorPolicy
  thread_name : String
deriving DecidableEq, Repr

instance {ε α : Type} [DecidableEq ε] [DecidableEq α] : DecidableEq (Except ε α)
  | Except.ok a, Except.ok b =>
      if h : a = b then Decidable.isTrue (by rw [h])
      else Decidable.isFalse (by simp [h])
  | Except.ok _, Except.error _ => Decidable.isFalse (by simp)
  | Except.error _, Except.ok _ => Decidable.isFalse (by simp)
  | Except.error e, Except.error f =>
      if h : e = f then Decidable.isTrue (by rw [h])
      else Decidable.isFalse (by simp [h])

/-- Observable actions of the spawned worker task, in program order. -/
inductive Action where
  /-- the call `DenoRuntime::new(opts)` with the configuration it was
  handed (after `timing.take()`). -/
  | bootEngine (opts : WorkerContextInitOpts)
  /-- a send on `booter_signal` (`Ok(())` or the boot error). -/
  | bootSignalSend (result : Except String Unit)
  /-- the call `create_supervisor(key, .., policy, .., metricsRx, .., timing)`
  recording the worker key, policy, presence of the CPU-usage-metrics
  receiver, and the timing payload it was handed. -/
  | createSupervisor (key : Nat) (policy : SupervisorPolicy)
      (metricsRx : Bool) (timing : Option Nat)
  /-- the call `method_cloner.handle_error(err)` (the error-handling hook). -/
  | handleError
  /-- the call `method_cloner.handle_creation(..)`, handing the connection
  stream and the termination-event receiver to the completion routine;
  records the presence of the CPU-usage-metrics sender it received. -/
  | handleCreation (metricsTx : Bool)
  /-- the debug log of `cpu_time_used`. -/
  | logCpuTime (t : Nat)
  /-- a terminal event pushed to the event sink. -/
  | sinkEvent (event : WorkerEvents)
  /-- the error log `unexpected worker error ..`. -/
  | logWorkerError (msg : String)
  /-- the send `tx.send(UserWorkerMsgs::Shutdown(key))` on the pool channel. -/
  | poolSend (key : Nat)
  /-- the error log `failed to send the shutdown signal to user worker pool`. -/
  | logPoolSendFailure
deriving DecidableEq, Repr

/-- Resolution of the external nondeterminism met by one run of the
spawned task: the outcome of `DenoRuntime::new`, of `create_supervisor`
(its `CPUTimer`, both flattened to `Nat`), the result of the
engine-specific completion routine (`handle_creation`), the result of
the `handle_error` hook, and whether the receiver of the pool channel is
still alive. -/
structure Env where
  bootResult : Except String Nat
  supervisorResult : Except String Nat
  handlerResult : Except String WorkerEvents
  handleErrorResult : Except String WorkerEvents
  poolSendOk : Bool
deriving Repr

/-- Uuid::nil(), the all-zero UUID, flattened to `Nat`. -/
def uuidNil : Nat := 0

/-- Modelled from the spec: `send_event_if_event_worker_available`
(in `utils.rs`, not among the provided sources) forwards the terminal
outcome to the event sink only if one is configured; a missing sink is
not an error. -/
def send_event_if_event_worker_available (events_msg_tx : Bool)
    (event : WorkerEvents) : List Action :=
  if events_msg_tx then [Action.sinkEvent event] else []

/-- The `match result` block of `Worker::start` (worker.rs lines 143-164):
on `Ok(event)`, log `cpu_time_used` for `Shutdown`/`UncaughtException`
events and forward the event to the sink if one is configured; on
`Err(err)`, log the error. -/
def handleResultActions (w : Worker) (result : Except String WorkerEvents) :
    List Action :=
  match result with
  | Except.ok event =>
      (match event with
       | WorkerEvents.Shutdown cpu_time_used => [Action.logCpuTime cpu_time_used]
       | WorkerEvents.UncaughtException cpu_time_used =>
           [Action.logCpuTime cpu_time_used]
       | _ => [])
      ++ send_event_if_event_worker_available w.events_msg_tx event
  | Except.error err => [Action.logWorkerError err]

/-- The pool-notification tail of `Worker::start` (worker.rs lines
166-175): `worker_key.and_then(|k| pool_msg_tx.map(|tx| ..))` — if both
the key and the pool channel are present, send `Shutdown(key)`, logging
(and otherwise ignoring) a failed send. -/
def poolNotifyActions (w : Worker) (env : Env) : List Action :=
  match w.worker_key with
  | some worker_key_unwrapped =>
      if w.pool_msg_tx then
        Action.poolSend worker_key_unwrapped ::
          (if env.poolSendOk then [] else [Action.logPoolSendFailure])
      else []
  | none => []

/-- The body of the task spawned by `Worker::start` (worker.rs lines
77-180), as a trace of observable actions together with the task
`Result<(), Error>` value.  Control flow mirrors the source:
`timing.take()` before the boot call; the CPU-usage-metrics channel pair
is created iff `is_user_worker`; on boot success the boot signal is sent,
then (for user workers) `create_supervisor` is called and its `?` aborts
the task on error, then `handle_creation` runs to completion; on boot
failure the boot error is signalled and `handle_error` produces the
result; afterwards the result is handled and the pool is notified. -/
def Worker.start (w : Worker) (env : Env) (opts : WorkerContextInitOpts) :
    List Action × Except String Unit :=
  let timing := opts.timing
  let opts := { opts with timing := none }
  let supervisor_policy := w.supervisor_policy.getD default
  let is_user_worker := opts.conf.is_user_worker
  match env.bootResult with
  | Except.ok _new_runtime =>
      let boot := [Action.bootEngine opts, Action.bootSignalSend (Except.ok ())]
      if is_user_worker then
        let sup := Action.createSupervisor (w.worker_key.getD uuidNil)
          supervisor_policy is_user_worker timing
        match env.supervisorResult with
        | Except.error e => (boot ++ [sup], Except.error e)
        | Except.ok _cpu_timer =>
            (boot ++ [sup, Action.handleCreation is_user_worker]
               ++ handleResultActions w env.handlerResult
               ++ poolNotifyActions w env,
             Except.ok ())
      else
        (boot ++ [Action.handleCreation is_user_worker]
           ++ handleResultActions w env.handlerResult
           ++ poolNotifyActions w env,
         Except.ok ())
  | Except.error _err =>
      ([Action.bootEngine opts,
        Action.bootSignalSend (Except.error "worker boot error"),
        Action.handleError]
         ++ handleResultActions w env.handleErrorResult
         ++ poolNotifyActions w env,
       Except.ok ())

/- ## Action classifiers -/

/-- Whether an action is a pool `Shutdown` send. -/
def Action.isPoolSend : Action → Bool
  | Action.poolSend _ => true
  | _ => false

/-- Whether an action is a `create_supervisor` call. -/
def Action.isCreateSupervisor : Action → Bool
  | Action.createSupervisor _ _ _ _ => true
  | _ => false

/-- Whether an action is a `handle_creation` call. -/
def Action.isHandleCreation : Action → Bool
  | Action.handleCreation _ => true
  | _ => false

/-- Number of pool `Shutdown` sends in a trace. -/
def countPoolSend (tr : List Action) : Nat :=
  List.countP (fun a => a.isPoolSend) tr

/- ## Data model: runtime metrics (sb_core/lib.rs) -/

/-- Heap statistics of one V8 isolate, as assembled by `interrupt_fn`
(sb_core/lib.rs); all fields are `usize` in the source, zero by default. -/
structure WorkerHeapStatistics where
  total_heap_size : Nat := 0
  total_heap_executable : Nat := 0
  total_physical_size : Nat := 0
  total_available_size : Nat := 0
  total_global_handles_size : Nat := 0
  used_global_handles_size : Nat := 0
  used_heap_size : Nat := 0
  malloced_memory : Nat := 0
  external_memory : Nat := 0
  peak_malloced_memory : Nat := 0
deriving DecidableEq, Repr, Inhabited

/-- A `WorkerMetricSource` (the thread-safe handle of an isolate plus its task
waker).  The isolate itself is external, so its interrupt mechanism is
modelled by oracles: `canScheduleInterrupt` is the return value of
`handle.request_interrupt`, `interruptRuns` states whether the scheduled
interrupt callback eventually runs on the isolate thread (it may not if
the isolate is torn down first, in which case the one-shot sender is
dropped unfired), and `heapStats` is the statistics snapshot `interrupt_fn`
would read and send when it runs. -/
structure WorkerMetricSource where
  canScheduleInterrupt : Bool
  interruptRuns : Bool
  heapStats : WorkerHeapStatistics
deriving DecidableEq, Repr

/-- Combined runtime heap statistics (sb_core/lib.rs); the event-worker
field is `Option`al and defaults to `none`. -/
structure RuntimeHeapStatistics where
  main_worker_heap_stats : WorkerHeapStatistics := {}
  event_worker_heap_stats : Option WorkerHeapStatistics := none
deriving DecidableEq, Repr, Inhabited

/-- The metric source held in the op state: the source of the main worker
and optionally that of the event worker. -/
structure RuntimeMetricSource where
  main : WorkerMetricSource
  event : Option WorkerMetricSource
deriving DecidableEq, Repr

/-- The closure `request_heap_statistics_fn` inside
`RuntimeMetricSource::get_heap_statistics` (sb_core/lib.rs lines 102-125):
given `None` it immediately yields no statistics; otherwise it creates a
one-shot channel and requests an interrupt on the isolate handle of the source.
If `request_interrupt` returns `false` the interrupt data is dropped and
the request yields `None`; otherwise the requester awaits the one-shot
receiver, obtaining the statistics pushed by `interrupt_fn`, or `None` if
the sender is dropped without firing. -/
def request_heap_statistics_fn (arg : Option WorkerMetricSource) :
    Option WorkerHeapStatistics :=
  match arg with
  | none => none
  | some source =>
      if !source.canScheduleInterrupt then none
      else if source.interruptRuns then some source.heapStats else none

/-- `RuntimeMetricSource::get_heap_statistics` (sb_core/lib.rs lines
70-135): the statistics of the main worker, with a defaulted fallback,
plus the optional statistics of the event worker. -/
def RuntimeMetricSource.get_heap_statistics (s : RuntimeMetricSource) :
    RuntimeHeapStatistics where
  main_worker_heap_stats := (request_heap_statistics_fn (some s.main)).getD {}
  event_worker_heap_stats := request_heap_statistics_fn s.event

/-- The serialized payload of `op_runtime_metrics` (sb_core/lib.rs lines
159-169); the four counters are `usize`, zero by `Default`. -/
structure RuntimeMetrics where
  heap_stats : RuntimeHeapStatistics := {}
  active_user_workers_count : Nat := 0
  retired_user_workers_count : Nat := 0
  received_requests_count : Nat := 0
  handled_requests_count : Nat := 0
deriving DecidableEq, Repr, Inhabited

/-- The op `op_runtime_metrics` (sb_core/lib.rs lines 187-200): start
from `RuntimeMetrics::default()` and fill in only `heap_stats` from the
`RuntimeMetricSource` stored in the op state. -/
def op_runtime_metrics (source : RuntimeMetricSource) : RuntimeMetrics :=
  let runtime_metrics : RuntimeMetrics := {}
  { runtime_metrics with heap_stats := source.get_heap_statistics }

/- ## Data model: classic Diffie-Hellman (node/ops/crypto/dh.rs) -/

/-- Uniform random big-integer generation, modelling
`rand::Rng::gen_biguint(bit_size)` of the `num_bigint_dig` crate (an
external library): it returns a uniformly random integer of at most
`bit_size` bits.  The randomness source is an oracle mapping the
requested bit size to a draw; the modulo keeps the draw inside the
requested range exactly as the library guarantees. -/
def gen_biguint (bit_size : Nat) (rng : Nat → Nat) : Nat :=
  rng bit_size % 2 ^ bit_size

/-- `BigUint::from_slice` of `num_bigint_dig` (external library): builds
a big integer from base-2^32 digits ordered least significant first. -/
def biguintFromSlice (slice : List Nat) : Nat :=
  List.foldr (fun d acc => d % 2 ^ 32 + acc * 2 ^ 32) 0 slice

/-- `PrivateKey::new(exponent_size)` (dh.rs lines 19-23): draw a random
exponent of at most `exponent_size` bits.  The `BigUint` newtype is
flattened to `Nat`. -/
def PrivateKey.new (exponent_size : Nat) (rng : Nat → Nat) : Nat :=
  gen_biguint exponent_size rng

/-- `PrivateKey::compute_public_key` (dh.rs lines 27-30): Diffie-Hellman
modular exponentiation, `s = g^x mod p`. -/
def compute_public_key (x generator modulus : Nat) : Nat :=
  generator ^ x % modulus

/-- Classic DH key pair (dh.rs lines 38-41). -/
structure DiffieHellman where
  private_key : Nat
  public_key : Nat
deriving DecidableEq, Repr

/-- The `DiffieHellmanGroup` trait (dh.rs lines 81-86): a generator, a
modulus given as `u32` limbs, and a documented exponent size in bits. -/
structure DiffieHellmanGroup where
  GENERATOR : Nat
  MODULUS : List Nat
  EXPONENT_SIZE : Nat
deriving DecidableEq, Repr

/-- `DiffieHellman::group::<G>()` (dh.rs lines 44-59): draw a private
exponent of `G::EXPONENT_SIZE / 8` bits (note the division by 8 — the
constant is documented as a size in bits) and compute the public key
with the generator and modulus of the group. -/
def DiffieHellman.group (G : DiffieHellmanGroup) (rng : Nat → Nat) :
    DiffieHellman :=
  let private_key := PrivateKey.new (G.EXPONENT_SIZE / 8) rng
  let generator := G.GENERATOR
  let modulus := biguintFromSlice G.MODULUS
  { private_key := private_key
    public_key := compute_public_key private_key generator modulus }

/-- The 1536-bit MODP group of RFC 3526. -/
def Modp1536 : DiffieHellmanGroup where
  GENERATOR := 2
  EXPONENT_SIZE := 192
  MODULUS := [
    0xFFFFFFFF, 0xFFFFFFFF, 0xC90FDAA2, 0x2168C234, 0xC4C6628B, 0x80DC1CD1,
    0x29024E08, 0x8A67CC74, 0x020BBEA6, 0x3B139B22, 0x514A0879, 0x8E3404DD,
    0xEF9519B3, 0xCD3A431B, 0x302B0A6D, 0xF25F1437, 0x4FE1356D, 0x6D51C245,
    0xE485B576, 0x625E7EC6, 0xF44C42E9, 0xA637ED6B, 0x0BFF5CB6, 0xF406B7ED,
    0xEE386BFB, 0x5A899FA5, 0xAE9F2411, 0x7C4B1FE6, 0x49286651, 0xECE45B3D,
    0xC2007CB8, 0xA163BF05, 0x98DA4836, 0x1C55D39A, 0x69163FA8, 0xFD24CF5F,
    0x83655D23, 0xDCA3AD96, 0x1C62F356, 0x208552BB, 0x9ED52907, 0x7096966D,
    0x670C354E, 0x4ABC9804, 0xF1746C08, 0xCA237327, 0xFFFFFFFF, 0xFFFFFFFF]

/-- The 2048-bit MODP group of RFC 3526. -/
def Modp2048 : DiffieHellmanGroup where
  GENERATOR := 2
  EXPONENT_SIZE := 256
  MODULUS := [
    0xFFFFFFFF, 0xFFFFFFFF, 0xC90FDAA2, 0x2168C234, 0xC4C6628B, 0x80DC1CD1,
    0x29024E08, 0x8A67CC74, 0x020BBEA6, 0x3B139B22, 0x514A0879, 0x8E3404DD,
    0xEF9519B3, 0xCD3A431B, 0x302B0A6D, 0xF25F1437, 0x4FE1356D, 0x6D51C245,
    0xE485B576, 0x625E7EC6, 0xF44C42E9, 0xA637ED6B, 0x0BFF5CB6, 0xF406B7ED,
    0xEE386BFB, 0x5A899FA5, 0xAE9F2411, 0x7C4B1FE6, 0x49286651, 0xECE45B3D,
    0xC2007CB8, 0xA163BF05, 0x98DA4836, 0x1C55D39A, 0x69163FA8, 0xFD24CF5F,
    0x83655D23, 0xDCA3AD96, 0x1C62F356, 0x208552BB, 0x9ED52907, 0x7096966D,
    0x670C354E, 0x4ABC9804, 0xF1746C08, 0xCA18217C, 0x32905E46, 0x2E36CE3B,
    0xE39E772C, 0x180E8603, 0x9B2783A2, 0xEC07A28F, 0xB5C55DF0, 0x6F4C52C9,
    0xDE2BCBF6, 0x95581718, 0x3995497C, 0xEA956AE5, 0x15D22618, 0x98FA0510,
    0x15728E5A, 0x8AACAA68, 0xFFFFFFFF, 0xFFFFFFFF]

/-- The 3072-bit MODP group of RFC 3526. -/
def Modp3072 : DiffieHellmanGroup where
  GENERATOR := 2
  EXPONENT_SIZE := 384
  MODULUS := [
    0xFFFFFFFF, 0xFFFFFFFF, 0xC90FDAA2, 0x2168C234, 0xC4C6628B, 0x80DC1CD1,
    0x29024E08, 0x8A67CC74, 0x020BBEA6, 0x3B139B22, 0x514A0879, 0x8E3404DD,
    0xEF9519B3, 0xCD3A431B, 0x302B0A6D, 0xF25F1437, 0x4FE1356D, 0x6D51C245,
    0xE485B576, 0x625E7EC6, 0xF44C42E9, 0xA637ED6B, 0x0BFF5CB6, 0xF406B7ED,
    0xEE386BFB, 0x5A899FA5, 0xAE9F2411, 0x7C4B1FE6, 0x49286651, 0xECE45B3D,
    0xC2007CB8, 0xA163BF05, 0x98DA4836, 0x1C55D39A, 0x69163FA8, 0xFD24CF5F,
    0x83655D23, 0xDCA3AD96, 0x1C62F356, 0x208552BB, 0x9ED52907, 0x7096966D,
    0x670C354E, 0x4ABC9804, 0xF1746C08, 0xCA18217C, 0x32905E46, 0x2E36CE3B,
    0xE39E772C, 0x180E8603, 0x9B2783A2, 0xEC07A28F, 0xB5C55DF0, 0x6F4C52C9,
    0xDE2BCBF6, 0x95581718, 0x3995497C, 0xEA956AE5, 0x15D22618, 0x98FA0510,
    0x15728E5A, 0x8AAAC42D, 0xAD33170D, 0x04507A33, 0xA85521AB, 0xDF1CBA64,
    0xECFB8504, 0x58DBEF0A, 0x8AEA7157, 0x5D060C7D, 0xB3970F85, 0xA6E1E4C7,
    0xABF5AE8C, 0xDB0933D7, 0x1E8C94E0, 0x4A25619D, 0xCEE3D226, 0x1AD2EE6B,
    0xF12FFA06, 0xD98A0864, 0xD8760273, 0x3EC86A64, 0x521F2B18, 0x177B200C,
    0xBBE11757, 0x7A615D6C, 0x770988C0, 0xBAD946E2, 0x08E24FA0, 0x74E5AB31,
    0x43DB5BFC, 0xE0FD108E, 0x4B82D120, 0xA93AD2CA, 0xFFFFFFFF, 0xFFFFFFFF]

/-- The 4096-bit MODP group of RFC 3526. -/
def Modp4096 : DiffieHellmanGroup where
  GENERATOR := 2
  EXPONENT_SIZE := 512
  MODULUS := [
    0xFFFFFFFF, 0xFFFFFFFF, 0xC90FDAA2, 0x2168C234, 0xC4C6628B, 0x80DC1CD1,
    0x29024E08, 0x8A67CC74, 0x020BBEA6, 0x3B139B22, 0x514A0879, 0x8E3404DD,
    0xEF9519B3, 0xCD3A431B, 0x302B0A6D, 0xF25F1437, 0x4FE1356D, 0x6D51C245,
    0xE485B576, 0x625E7EC6, 0xF44C42E9, 0xA637ED6B, 0x0BFF5CB6, 0xF406B7ED,
    0xEE386BFB, 0x5A899FA5, 0xAE9F2411, 0x7C4B1FE6, 0x49286651, 0xECE45B3D,
    0xC2007CB8, 0xA163BF05, 0x98DA4836, 0x1C55D39A, 0x69163FA8, 0xFD24CF5F,
    0x83655D23, 0xDCA3AD96, 0x1C62F356, 0x208552BB, 0x9ED52907, 0x7096966D,
    0x670C354E, 0x4ABC9804, 0xF1746C08, 0xCA18217C, 0x32905E46, 0x2E36CE3B,
    0xE39E772C, 0x180E8603, 0x9B2783A2, 0xEC07A28F, 0xB5C55DF0, 0x6F4C52C9,
    0xDE2BCBF6, 0x95581718, 0x3995497C, 0xEA956AE5, 0x15D22618, 0x98FA0510,
    0x15728E5A, 0x8AAAC42D, 0xAD33170D, 0x04507A33, 0xA85521AB, 0xDF1CBA64,
    0xECFB8504, 0x58DBEF0A, 0x8AEA7157, 0x5D060C7D, 0xB3970F85, 0xA6E1E4C7,
    0xABF5AE8C, 0xDB0933D7, 0x1E8C94E0, 0x4A25619D, 0xCEE3D226, 0x1AD2EE6B,
    0xF12FFA06, 0xD98A0864, 0xD8760273, 0x3EC86A64, 0x521F2B18, 0x177B200C,
    0xBBE11757, 0x7A615D6C, 0x770988C0, 0xBAD946E2, 0x08E24FA0, 0x74E5AB31,
    0x43DB5BFC, 0xE0FD108E, 0x4B82D120, 0xA9210801, 0x1A723C12, 0xA787E6D7,
    0x88719A10, 0xBDBA5B26, 0x99C32718, 0x6AF4E23C, 0x1A946834, 0xB6150BDA,
    0x2583E9CA, 0x2AD44CE8, 0xDBBBC2DB, 0x04DE8EF9, 0x2E8EFC14, 0x1FBECAA6,
    0x287C5947, 0x4E6BC05D, 0x99B2964F, 0xA090C3A2, 0x233BA186, 0x515BE7ED,
    0x1F612970, 0xCEE2D7AF, 0xB81BDD76, 0x2170481C, 0xD0069127, 0xD5B05AA9,
    0x93B4EA98, 0x8D8FDDC1, 0x86FFB7DC, 0x90A6C08F, 0x4DF435C9, 0x34063199,
    0xFFFFFFFF, 0xFFFFFFFF]

/-- The 6144-bit MODP group of RFC 3526. -/
def Modp6144 : DiffieHellmanGroup where
  GENERATOR := 2
  EXPONENT_SIZE := 768
  MODULUS := [
    0xFFFFFFFF, 0xFFFFFFFF, 0xC90FDAA2, 0x2168C234, 0xC4C6628B, 0x80DC1CD1,
    0x29024E08, 0x8A67CC74, 0x020BBEA6, 0x3B139B22, 0x514A0879, 0x8E3404DD,
    0xEF9519B3, 0xCD3A431B, 0x302B0A6D, 0xF25F1437, 0x4FE1356D, 0x6D51C245,
    0xE485B576, 0x625E7EC6, 0xF44C42E9, 0xA637ED6B, 0x0BFF5CB6, 0xF406B7ED,
    0xEE386BFB, 0x5A899FA5, 0xAE9F2411, 0x7C4B1FE6, 0x49286651, 0xECE45B3D,
    0xC2007CB8, 0xA163BF05, 0x98DA4836, 0x1C55D39A, 0x69163FA8, 0xFD24CF5F,
    0x83655D23, 0xDCA3AD96, 0x1C62F356, 0x208552BB, 0x9ED52907, 0x7096966D,
    0x670C354E, 0x4ABC9804, 0xF1746C08, 0xCA18217C, 0x32905E46, 0x2E36CE3B,
    0xE39E772C, 0x180E8603, 0x9B2783A2, 0xEC07A28F, 0xB5C55DF0, 0x6F4C52C9,
    0xDE2BCBF6, 0x95581718, 0x3995497C, 0xEA956AE5, 0x15D22618, 0x98FA0510,
    0x15728E5A, 0x8AAAC42D, 0xAD33170D, 0x04507A33, 0xA85521AB, 0xDF1CBA64,
    0xECFB8504, 0x58DBEF0A, 0x8AEA7157, 0x5D060C7D, 0xB3970F85, 0xA6E1E4C7,
    0xABF5AE8C, 0xDB0933D7, 0x1E8C94E0, 0x4A25619D, 0xCEE3D226, 0x1AD2EE6B,
    0xF12FFA06, 0xD98A0864, 0xD8760273, 0x3EC86A64, 0x521F2B18, 0x177B200C,
    0xBBE11757, 0x7A615D6C, 0x770988C0, 0xBAD946E2, 0x08E24FA0, 0x74E5AB31,
    0x43DB5BFC, 0xE0FD108E, 0x4B82D120, 0xA9210801, 0x1A723C12, 0xA787E6D7,
    0x88719A10, 0xBDBA5B26, 0x99C32718, 0x6AF4E23C, 0x1A946834, 0xB6150BDA,
    0x2583E9CA, 0x2AD44CE8, 0xDBBBC2DB, 0x04DE8EF9, 0x2E8EFC14, 0x1FBECAA6,
    0x287C5947, 0x4E6BC05D, 0x99B2964F, 0xA090C3A2, 0x233BA186, 0x515BE7ED,
    0x1F612970, 0xCEE2D7AF, 0xB81BDD76, 0x2170481C, 0xD0069127, 0xD5B05AA9,
    0x93B4EA98, 0x8D8FDDC1, 0x86FFB7DC, 0x90A6C08F, 0x4DF435C9, 0x34028492,
    0x36C3FAB4, 0xD27C7026, 0xC1D4DCB2, 0x602646DE, 0xC9751E76, 0x3DBA37BD,
    0xF8FF9406, 0xAD9E530E, 0xE5DB382F, 0x413001AE, 0xB06A53ED, 0x9027D831,
    0x179727B0, 0x865A8918, 0xDA3EDBEB, 0xCF9B14ED, 0x44CE6CBA, 0xCED4BB1B,
    0xDB7F1447, 0xE6CC254B, 0x33205151, 0x2BD7AF42, 0x6FB8F401, 0x378CD2BF,
    0x5983CA01, 0xC64B92EC, 0xF032EA15, 0xD1721D03, 0xF482D7CE, 0x6E74FEF6,
    0xD55E702F, 0x46980C82, 0xB5A84031, 0x900B1C9E, 0x59E7C97F, 0xBEC7E8F3,
    0x23A97A7E, 0x36CC88BE, 0x0F1D45B7, 0xFF585AC5, 0x4BD407B2, 0x2B4154AA,
    0xCC8F6D7E, 0xBF48E1D8, 0x14CC5ED2, 0x0F8037E0, 0xA79715EE, 0xF29BE328,
    0x06A1D58B, 0xB7C5DA76, 0xF550AA3D, 0x8A1FBFF0, 0xEB19CCB1, 0xA313D55C,
    0xDA56C9EC, 0x2EF29632, 0x387FE8D7, 0x6E3C0468, 0x043E8F66, 0x3F4860EE,
    0x12BF2D5B, 0x0B7474D6, 0xE694F91E, 0x6DCC4024, 0xFFFFFFFF, 0xFFFFFFFF]

/-- The 8192-bit MODP group of RFC 3526. -/
def Modp8192 : DiffieHellmanGroup where
  GENERATOR := 2
  EXPONENT_SIZE := 1024
  MODULUS := [
    0xFFFFFFFF, 0xFFFFFFFF, 0xC90FDAA2, 0x2168C234, 0xC4C6628B, 0x80DC1CD1,
    0x29024E08, 0x8A67CC74, 0x020BBEA6, 0x3B139B22, 0x514A0879, 0x8E3404DD,
    0xEF9519B3, 0xCD3A431B, 0x302B0A6D, 0xF25F1437, 0x4FE1356D, 0x6D51C245,
    0xE485B576, 0x625E7EC6, 0xF44C42E9, 0xA637ED6B, 0x0BFF5CB6, 0xF406B7ED,
    0xEE386BFB, 0x5A899FA5, 0xAE9F2411, 0x7C4B1FE6, 0x49286651, 0xECE45B3D,
    0xC2007CB8, 0xA163BF05, 0x98DA4836, 0x1C55D39A, 0x69163FA8, 0xFD24CF5F,
    0x83655D23, 0xDCA3AD96, 0x1C62F356, 0x208552BB, 0x9ED52907, 0x7096966D,
    0x670C354E, 0x4ABC9804, 0xF1746C08, 0xCA18217C, 0x32905E46, 0x2E36CE3B,
    0xE39E772C, 0x180E8603, 0x9B2783A2, 0xEC07A28F, 0xB5C55DF0, 0x6F4C52C9,
    0xDE2BCBF6, 0x95581718, 0x3995497C, 0xEA956AE5, 0x15D22618, 0x98FA0510,
    0x15728E5A, 0x8AAAC42D, 0xAD33170D, 0x04507A33, 0xA85521AB, 0xDF1CBA64,
    0xECFB8504, 0x58DBEF0A, 0x8AEA7157, 0x5D060C7D, 0xB3970F85, 0xA6E1E4C7,
    0xABF5AE8C, 0xDB0933D7, 0x1E8C94E0, 0x4A25619D, 0xCEE3D226, 0x1AD2EE6B,
    0xF12FFA06, 0xD98A0864, 0xD8760273, 0x3EC86A64, 0x521F2B18, 0x177B200C,
    0xBBE11757, 0x7A615D6C, 0x770988C0, 0xBAD946E2, 0x08E24FA0, 0x74E5AB31,
    0x43DB5BFC, 0xE0FD108E, 0x4B82D120, 0xA9210801, 0x1A723C12, 0xA787E6D7,
    0x88719A10, 0xBDBA5B26, 0x99C32718, 0x6AF4E23C, 0x1A946834, 0xB6150BDA,
    0x2583E9CA, 0x2AD44CE8, 0xDBBBC2DB, 0x04DE8EF9, 0x2E8EFC14, 0x1FBECAA6,
    0x287C5947, 0x4E6BC05D, 0x99B2964F, 0xA090C3A2, 0x233BA186, 0x515BE7ED,
    0x1F612970, 0xCEE2D7AF, 0xB81BDD76, 0x2170481C, 0xD0069127, 0xD5B05AA9,
    0x93B4EA98, 0x8D8FDDC1, 0x86FFB7DC, 0x90A6C08F, 0x4DF435C9, 0x34028492,
    0x36C3FAB4, 0xD27C7026, 0xC1D4DCB2, 0x602646DE, 0xC9751E76, 0x3DBA37BD,
    0xF8FF9406, 0xAD9E530E, 0xE5DB382F, 0x413001AE, 0xB06A53ED, 0x9027D831,
    0x179727B0, 0x865A8918, 0xDA3EDBEB, 0xCF9B14ED, 0x44CE6CBA, 0xCED4BB1B,
    0xDB7F1447, 0xE6CC254B, 0x33205151, 0x2BD7AF42, 0x6FB8F401, 0x378CD2BF,
    0x5983CA01, 0xC64B92EC, 0xF032EA15, 0xD1721D03, 0xF482D7CE, 0x6E74FEF6,
    0xD55E702F, 0x46980C82, 0xB5A84031, 0x900B1C9E, 0x59E7C97F, 0xBEC7E8F3,
    0x23A97A7E, 0x36CC88BE, 0x0F1D45B7, 0xFF585AC5, 0x4BD407B2, 0x2B4154AA,
    0xCC8F6D7E, 0xBF48E1D8, 0x14CC5ED2, 0x0F8037E0, 0xA79715EE, 0xF29BE328,
    0x06A1D58B, 0xB7C5DA76, 0xF550AA3D, 0x8A1FBFF0, 0xEB19CCB1, 0xA313D55C,
    0xDA56C9EC, 0x2EF29632, 0x387FE8D7, 0x6E3C0468, 0x043E8F66, 0x3F4860EE,
    0x12BF2D5B, 0x0B7474D6, 0xE694F91E, 0x6DBE1159, 0x74A3926F, 0x12FEE5E4,
    0x38777CB6, 0xA932DF8C, 0xD8BEC4D0, 0x73B931BA, 0x3BC832B6, 0x8D9DD300,
    0x741FA7BF, 0x8AFC47ED, 0x2576F693, 0x6BA42466, 0x3AAB639C, 0x5AE4F568,
    0x3423B474, 0x2BF1C978, 0x238F16CB, 0xE39D652D, 0xE3FDB8BE, 0xFC848AD9,
    0x22222E04, 0xA4037C07, 0x13EB57A8, 0x1A23F0C7, 0x3473FC64, 0x6CEA306B,
    0x4BCBC886, 0x2F8385DD, 0xFA9D4B7F, 0xA2C087E8, 0x79683303, 0xED5BDD3A,
    0x062B3CF5, 0xB3A278A6, 0x6D2A13F8, 0x3F44F82D, 0xDF310EE0, 0x74AB6A36,
    0x4597E899, 0xA0255DC1, 0x64F31CC5, 0x0846851D, 0xF9AB4819, 0x5DED7EA1,
    0xB1D510BD, 0x7EE74D73, 0xFAF36BC3, 0x1ECFA268, 0x359046F4, 0xEB879F92,
    0x4009438B, 0x481C6CD7, 0x889A002E, 0xD5EE382B, 0xC9190DA6, 0xFC026E47,
    0x9558E447, 0x5677E9AA, 0x9E3050E2, 0x765694DF, 0xC81F56E8, 0x80B96E71,
    0x60C980DD, 0x98EDD3DF, 0xFFFFFFFF, 0xFFFFFFFF]

/-- The six well-known MODP groups defined in dh.rs. -/
def wellKnownModpGroups : List DiffieHellmanGroup :=
  [Modp1536, Modp2048, Modp3072, Modp4096, Modp6144, Modp8192]

/- ## Helper lemmas -/

theorem countPoolSend_append (l1 l2 : List Action) :
    countPoolSend (l1 ++ l2) = countPoolSend l1 + countPoolSend l2 :=
  List.countP_append _ _ _

theorem countPoolSend_handleResultActions (w : Worker)
    (r : Except String WorkerEvents) :
    countPoolSend (handleResultActions w r) = 0 := by
  rcases r with e | ev
  · simp [handleResultActions, countPoolSend, Action.isPoolSend]
  · cases hw : w.events_msg_tx <;> rcases ev with t | t | m | _ <;>
      simp [handleResultActions, send_event_if_event_worker_available, hw,
        countPoolSend, Action.isPoolSend]

theorem handleResultActions_not_engine_step (w : Worker)
    (r : Except String WorkerEvents) :
    ∀ a ∈ handleResultActions w r,
      a.isCreateSupervisor = false ∧ a.isHandleCreation = false := by
  intro a ha
  rcases r with e | ev
  · simp only [handleResultActions, List.mem_singleton] at ha
    subst ha; exact ⟨rfl, rfl⟩
  · cases hw : w.events_msg_tx <;> rcases ev with t | t | m | _ <;>
      simp [handleResultActions, send_event_if_event_worker_available, hw] at ha <;>
      (rcases ha with rfl | rfl <;> exact ⟨rfl, rfl⟩)

theorem poolNotifyActions_not_engine_step (w : Worker) (env : Env) :
    ∀ a ∈ poolNotifyActions w env,
      a.isCreateSupervisor = false ∧ a.isHandleCreation = false := by
  intro a ha
  rcases hk : w.worker_key with _ | k <;>
    cases hp : w.pool_msg_tx <;> cases hps : env.poolSendOk <;>
      simp [poolNotifyActions, hk, hp, hps] at ha <;>
      (rcases ha with rfl | rfl <;> exact ⟨rfl, rfl⟩)

theorem start_trace_of_boot_ok (w : Worker) (env : Env)
    (opts : WorkerContextInitOpts) (rt : Nat)
    (hboot : env.bootResult = Except.ok rt) :
    Worker.start w env opts =
      (Action.bootEngine { opts with timing := none } ::
        Action.bootSignalSend (Except.ok ()) ::
        (if opts.conf.is_user_worker then
          Action.createSupervisor (w.worker_key.getD uuidNil)
              (w.supervisor_policy.getD default) true opts.timing ::
            (match env.supervisorResult with
             | Except.error _ => []
             | Except.ok _ =>
                 Action.handleCreation true ::
                   (handleResultActions w env.handlerResult ++
                     poolNotifyActions w env))
         else
          Action.handleCreation false ::
            (handleResultActions w env.handlerResult ++
              poolNotifyActions w env)),
       match opts.conf.is_user_worker, env.supervisorResult with
       | true, Except.error e => Except.error e
       | _, _ => Except.ok ()) := by
  obtain ⟨br, sr, hres, herr, ps⟩ := env
  obtain rfl : br = Except.ok rt := hboot
  cases hu : opts.conf.is_user_worker <;> rcases sr with s | c <;>
    simp [Worker.start, hu]

theorem start_trace_of_boot_error (w : Worker) (env : Env)
    (opts : WorkerContextInitOpts) (e : String)
    (hboot : env.bootResult = Except.error e) :
    Worker.start w env opts =
      ([Action.bootEngine { opts with timing := none },
        Action.bootSignalSend (Except.error "worker boot error"),
        Action.handleError]
         ++ handleResultActions w env.handleErrorResult
         ++ poolNotifyActions w env,
       Except.ok ()) := by
  obtain ⟨br, sr, hres, herr, ps⟩ := env
  obtain rfl : br = Except.error e := hboot
  simp [Worker.start]

theorem sinkEvent_mem_handleResultActions (w : Worker) (ev : WorkerEvents)
    (hw : w.events_msg_tx = true) :
    Action.sinkEvent ev ∈ handleResultActions w (Except.ok ev) := by
  rcases ev with t | t | m | _ <;>
    simp [handleResultActions, send_event_if_event_worker_available, hw]

theorem poolNotifyActions_of_key_and_tx (w : Worker) (env : Env) (k : Nat)
    (hk : w.worker_key = some k) (hp : w.pool_msg_tx = true) :
    poolNotifyActions w env =
      Action.poolSend k ::
        (if env.poolSendOk then [] else [Action.logPoolSendFailure]) := by
  simp [poolNotifyActions, hk, hp]

theorem poolNotifyActions_of_no_key (w : Worker) (env : Env)
    (hk : w.worker_key = none) : poolNotifyActions w env = [] := by
  simp [poolNotifyActions, hk]

theorem handleResultActions_shape (w : Worker) (r : Except String WorkerEvents) :
    ∀ a ∈ handleResultActions w r,
      (∃ t, a = Action.logCpuTime t) ∨ (∃ ev, a = Action.sinkEvent ev) ∨
        ∃ m, a = Action.logWorkerError m := by
  intro a ha
  rcases r with e | ev
  · simp only [handleResultActions, List.mem_singleton] at ha
    exact Or.inr (Or.inr ⟨e, ha⟩)
  · cases hw : w.events_msg_tx <;> rcases ev with t | t | m | _ <;>
      simp [handleResultActions, send_event_if_event_worker_available, hw] at ha <;>
      first
        | (rcases ha with rfl | rfl
           · exact Or.inl ⟨_, rfl⟩
           · exact Or.inr (Or.inl ⟨_, rfl⟩))
        | (rcases ha with rfl; exact Or.inl ⟨_, rfl⟩)
        | (rcases ha with rfl; exact Or.inr (Or.inl ⟨_, rfl⟩))

theorem poolNotifyActions_shape (w : Worker) (env : Env) :
    ∀ a ∈ poolNotifyActions w env,
      (∃ k, a = Action.poolSend k) ∨ a = Action.logPoolSendFailure := by
  intro a ha
  rcases hk : w.worker_key with _ | k <;>
    cases hp : w.pool_msg_tx <;> cases hps : env.poolSendOk <;>
      simp [poolNotifyActions, hk, hp, hps] at ha <;>
      first
        | (rcases ha with rfl | rfl
           · exact Or.inl ⟨_, rfl⟩
           · exact Or.inr rfl)
        | (rcases ha with rfl; exact Or.inl ⟨_, rfl⟩)

/-- Case analysis on the four control-flow paths of the spawned task:
boot failure; boot success for a privileged worker; boot success for a
user worker whose supervisor creation fails (the task aborts with the
error before handling any result); and boot success for a user worker
with a live supervisor. -/
theorem start_cases (w : Worker) (env : Env) (opts : WorkerContextInitOpts) :
    Worker.start w env opts =
      (Action.bootEngine { opts with timing := none } ::
        Action.bootSignalSend (Except.error "worker boot error") ::
        Action.handleError ::
        (handleResultActions w env.handleErrorResult ++
          poolNotifyActions w env), Except.ok ()) ∨
    Worker.start w env opts =
      (Action.bootEngine { opts with timing := none } ::
        Action.bootSignalSend (Except.ok ()) ::
        Action.handleCreation false ::
        (handleResultActions w env.handlerResult ++
          poolNotifyActions w env), Except.ok ()) ∨
    (∃ s, Worker.start w env opts =
      (Action.bootEngine { opts with timing := none } ::
        Action.bootSignalSend (Except.ok ()) ::
        [Action.createSupervisor (w.worker_key.getD uuidNil)
          (w.supervisor_policy.getD default) true opts.timing],
       Except.error s)) ∨
    Worker.start w env opts =
      (Action.bootEngine { opts with timing := none } ::
        Action.bootSignalSend (Except.ok ()) ::
        Action.createSupervisor (w.worker_key.getD uuidNil)
          (w.supervisor_policy.getD default) true opts.timing ::
        Action.handleCreation true ::
        (handleResultActions w env.handlerResult ++
          poolNotifyActions w env), Except.ok ()) := by
  rcases hb : env.bootResult with e | rt
  · exact Or.inl (by rw [start_trace_of_boot_error w env opts e hb]; simp)
  · have h := start_trace_of_boot_ok w env opts rt hb
    cases hu : opts.conf.is_user_worker
    · rw [hu] at h
      simp only [Bool.false_eq_true, if_false] at h
      exact Or.inr (Or.inl h)
    · rw [hu] at h
      simp only [if_true] at h
      rcases hs : env.supervisorResult with s | c <;> rw [hs] at h
      · exact Or.inr (Or.inr (Or.inl ⟨s, h⟩))
      · exact Or.inr (Or.inr (Or.inr h))

/-- Sample worker carrying an identity, a pool endpoint and an event sink. -/
def sampleWorker : Worker :=
  { worker_boot_start_time := 0, events_msg_tx := true, pool_msg_tx := true,
    cancel := false, event_metadata := 0, worker_key := some 7,
    supervisor_policy := none, thread_name := "sample" }

/-- Sample tenant-isolated configuration with a timing payload. -/
def sampleOptsUser : WorkerContextInitOpts :=
  { timing := some 3, conf := { is_user_worker := true }, rest := 5 }

/-- Sample privileged (non-user) configuration. -/
def sampleOptsMain : WorkerContextInitOpts :=
  { timing := none, conf := { is_user_worker := false }, rest := 5 }

/-- Environment in which everything succeeds. -/
def sampleEnvOk : Env :=
  { bootResult := Except.ok 0, supervisorResult := Except.ok 1,
    handlerResult := Except.ok (WorkerEvents.Shutdown 42),
    handleErrorResult := Except.ok (WorkerEvents.BootFailure "boot"),
    poolSendOk := true }

/-- Environment in which the engine fails to boot. -/
def sampleEnvBootFail : Env :=
  { bootResult := Except.error "no boot", supervisorResult := Except.ok 1,
    handlerResult := Except.ok WorkerEvents.Other,
    handleErrorResult := Except.ok (WorkerEvents.BootFailure "boot"),
    poolSendOk := true }

/-- Environment in which supervisor creation fails. -/
def sampleEnvSupFail : Env :=
  { bootResult := Except.ok 0, supervisorResult := Except.error "sup",
    handlerResult := Except.ok (WorkerEvents.Shutdown 42),
    handleErrorResult := Except.ok (WorkerEvents.BootFailure "boot"),
    poolSendOk := true }

/- ## Claims about the worker lifecycle -/

/-- C2: for every Worker whose Execution Engine boots successfully, the
success value is sent through the boot signal right after the boot call
and before the connection stream is handed to the completion routine:
the trace begins with the boot call and the successful boot-signal send,
and any handoff to the completion routine lies strictly later. -/
theorem boot_signal_success_precedes_handoff (w : Worker) (env : Env)
    (opts : WorkerContextInitOpts) (rt : Nat)
    (hboot : env.bootResult = Except.ok rt) :
    ∃ rest,
      (Worker.start w env opts).1 =
        Action.bootEngine { opts with timing := none } ::
          Action.bootSignalSend (Except.ok ()) :: rest ∧
      ∀ b, Action.handleCreation b ∈ (Worker.start w env opts).1 →
        Action.handleCreation b ∈ rest := by
  rw [start_trace_of_boot_ok w env opts rt hboot]
  refine ⟨_, rfl, ?_⟩
  intro b hb
  simpa using hb

/-- Witness for C2: a user worker in the all-success environment. -/
theorem boot_signal_success_precedes_handoff_witness :
    sampleEnvOk.bootResult = Except.ok 0 ∧
    ∃ rest,
      (Worker.start sampleWorker sampleEnvOk sampleOptsUser).1 =
        Action.bootEngine { sampleOptsUser with timing := none } ::
          Action.bootSignalSend (Except.ok ()) :: rest ∧
      ∀ b, Action.handleCreation b ∈
          (Worker.start sampleWorker sampleEnvOk sampleOptsUser).1 →
        Action.handleCreation b ∈ rest :=
  ⟨rfl, boot_signal_success_precedes_handoff sampleWorker sampleEnvOk
    sampleOptsUser 0 rfl⟩

/-- C3: for every Worker whose Execution Engine fails to boot, the trace
starts with the boot call, a boot-error send on the boot signal, and the
invocation of the error-handling hook; no supervisor is created and the
completion routine is never invoked; the synthesized terminal event is
forwarded to the event sink when one is configured; and the pool
Shutdown(identity) message is still sent when an identity and a pool
endpoint are present. -/
theorem boot_failure_signals_error_and_still_notifies_pool (w : Worker)
    (env : Env) (opts : WorkerContextInitOpts) (e : String)
    (hboot : env.bootResult = Except.error e) :
    (∃ t, (Worker.start w env opts).1 =
      Action.bootEngine { opts with timing := none } ::
        Action.bootSignalSend (Except.error "worker boot error") ::
        Action.handleError :: t) ∧
    (∀ a ∈ (Worker.start w env opts).1,
      a.isCreateSupervisor = false ∧ a.isHandleCreation = false) ∧
    (∀ ev, w.events_msg_tx = true → env.handleErrorResult = Except.ok ev →
      Action.sinkEvent ev ∈ (Worker.start w env opts).1) ∧
    (∀ k, w.worker_key = some k → w.pool_msg_tx = true →
      Action.poolSend k ∈ (Worker.start w env opts).1) := by
  have htr : (Worker.start w env opts).1 =
      [Action.bootEngine { opts with timing := none },
        Action.bootSignalSend (Except.error "worker boot error"),
        Action.handleError]
        ++ handleResultActions w env.handleErrorResult
        ++ poolNotifyActions w env := by
    rw [start_trace_of_boot_error w env opts e hboot]
  rw [htr]
  refine ⟨⟨handleResultActions w env.handleErrorResult ++ poolNotifyActions w env,
    by simp⟩, ?_, ?_, ?_⟩
  · intro a ha
    simp only [List.cons_append, List.nil_append, List.mem_cons,
      List.mem_append] at ha
    rcases ha with rfl | rfl | rfl | ha | ha
    · exact ⟨rfl, rfl⟩
    · exact ⟨rfl, rfl⟩
    · exact ⟨rfl, rfl⟩
    · exact handleResultActions_not_engine_step w _ a ha
    · exact poolNotifyActions_not_engine_step w env a ha
  · intro ev hw hr
    simp only [List.cons_append, List.nil_append, List.mem_cons,
      List.mem_append]
    exact Or.inr (Or.inr (Or.inr (Or.inl
      (hr ▸ sinkEvent_mem_handleResultActions w ev hw))))
  · intro k hk hp
    simp [poolNotifyActions_of_key_and_tx w env k hk hp]

/-- Witness for C3: a user worker whose engine fails to boot. -/
theorem boot_failure_signals_error_and_still_notifies_pool_witness :
    sampleEnvBootFail.bootResult = Except.error "no boot" ∧
    ((∃ t, (Worker.start sampleWorker sampleEnvBootFail sampleOptsUser).1 =
      Action.bootEngine { sampleOptsUser with timing := none } ::
        Action.bootSignalSend (Except.error "worker boot error") ::
        Action.handleError :: t) ∧
    (∀ a ∈ (Worker.start sampleWorker sampleEnvBootFail sampleOptsUser).1,
      a.isCreateSupervisor = false ∧ a.isHandleCreation = false) ∧
    (∀ ev, sampleWorker.events_msg_tx = true →
      sampleEnvBootFail.handleErrorResult = Except.ok ev →
      Action.sinkEvent ev ∈
        (Worker.start sampleWorker sampleEnvBootFail sampleOptsUser).1) ∧
    (∀ k, sampleWorker.worker_key = some k → sampleWorker.pool_msg_tx = true →
      Action.poolSend k ∈
        (Worker.start sampleWorker sampleEnvBootFail sampleOptsUser).1)) :=
  ⟨rfl, boot_failure_signals_error_and_still_notifies_pool sampleWorker
    sampleEnvBootFail sampleOptsUser "no boot" rfl⟩

/-- Counterexample to C4 as stated: for a tenant-isolated (user) worker
whose engine fails to boot, no supervisor is created at all, so
"a Supervisor is created if and only if the instance is tenant-isolated"
fails for this Worker. -/
theorem supervisor_iff_user_worker_cex :
    sampleOptsUser.conf.is_user_worker = true ∧
    (Worker.start sampleWorker sampleEnvBootFail sampleOptsUser).1.all
      (fun a => !a.isCreateSupervisor) = true := by
  decide

/-- C4 (amended): for every Worker whose engine boots successfully, a
Supervisor is created if and only if the instance is tenant-isolated
(a user worker), and the completion routine receives a CPU-metrics
sender exactly when the instance is tenant-isolated (None for
privileged/system instances).  On the boot-failure path no Supervisor
is created even for tenant-isolated instances. -/
theorem supervisor_created_iff_user_worker_when_boot_ok (w : Worker)
    (env : Env) (opts : WorkerContextInitOpts) (rt : Nat)
    (hboot : env.bootResult = Except.ok rt) :
    ((Worker.start w env opts).1.any (fun a => a.isCreateSupervisor) = true ↔
      opts.conf.is_user_worker = true) ∧
    (∀ b, Action.handleCreation b ∈ (Worker.start w env opts).1 →
      b = opts.conf.is_user_worker) := by
  have h := start_trace_of_boot_ok w env opts rt hboot
  cases hu : opts.conf.is_user_worker
  · rw [hu] at h
    simp only [if_false, Bool.false_eq_true] at h
    have htr : (Worker.start w env opts).1 =
        Action.bootEngine { opts with timing := none } ::
          Action.bootSignalSend (Except.ok ()) ::
          Action.handleCreation false ::
          (handleResultActions w env.handlerResult ++
            poolNotifyActions w env) := by rw [h]
    rw [htr]
    constructor
    · simp only [Bool.false_eq_true, iff_false]
      intro hany
      simp only [List.any_cons, List.any_eq_true, Bool.or_eq_true,
        List.mem_append] at hany
      rcases hany with h1 | h1 | h1 | ⟨a, ha | ha, hpa⟩
      · exact absurd h1 (by simp [Action.isCreateSupervisor])
      · exact absurd h1 (by simp [Action.isCreateSupervisor])
      · exact absurd h1 (by simp [Action.isCreateSupervisor])
      · exact absurd hpa
          (by simp [(handleResultActions_not_engine_step w _ a ha).1])
      · exact absurd hpa
          (by simp [(poolNotifyActions_not_engine_step w env a ha).1])
    · intro b hb
      simp only [List.mem_cons, List.mem_append] at hb
      rcases hb with h1 | h1 | h1 | hb | hb
      · exact absurd h1 (by simp)
      · exact absurd h1 (by simp)
      · exact (Action.handleCreation.injEq _ _).mp h1.symm |>.symm ▸ rfl
      · exact absurd (handleResultActions_not_engine_step w _ _ hb).2
          (by simp [Action.isHandleCreation])
      · exact absurd (poolNotifyActions_not_engine_step w env _ hb).2
          (by simp [Action.isHandleCreation])
  · rw [hu] at h
    simp only [if_true] at h
    constructor
    · simp only [iff_true]
      have htr : (Worker.start w env opts).1 =
          Action.bootEngine { opts with timing := none } ::
            Action.bootSignalSend (Except.ok ()) ::
            Action.createSupervisor (w.worker_key.getD uuidNil)
              (w.supervisor_policy.getD default) true opts.timing ::
            (match env.supervisorResult with
             | Except.error _ => []
             | Except.ok _ =>
                 Action.handleCreation true ::
                   (handleResultActions w env.handlerResult ++
                     poolNotifyActions w env)) := by rw [h]
      rw [htr]
      simp [Action.isCreateSupervisor]
    · intro b hb
      have htr : (Worker.start w env opts).1 =
          Action.bootEngine { opts with timing := none } ::
            Action.bootSignalSend (Except.ok ()) ::
            Action.createSupervisor (w.worker_key.getD uuidNil)
              (w.supervisor_policy.getD default) true opts.timing ::
            (match env.supervisorResult with
             | Except.error _ => []
             | Except.ok _ =>
                 Action.handleCreation true ::
                   (handleResultActions w env.handlerResult ++
                     poolNotifyActions w env)) := by rw [h]
      rw [htr] at hb
      rcases hs : env.supervisorResult with s | c <;> rw [hs] at hb
      · simp at hb
      · simp only [List.mem_cons, List.mem_append] at hb
        rcases hb with h1 | h1 | h1 | h1 | hb | hb
        · exact absurd h1 (by simp)
        · exact absurd h1 (by simp)
        · exact absurd h1 (by simp)
        · exact (Action.handleCreation.injEq _ _).mp h1
        · exact absurd (handleResultActions_not_engine_step w _ _ hb).2
            (by simp [Action.isHandleCreation])
        · exact absurd (poolNotifyActions_not_engine_step w env _ hb).2
            (by simp [Action.isHandleCreation])

/-- Witness for C4 (amended): a user worker in the all-success
environment. -/
theorem supervisor_created_iff_user_worker_when_boot_ok_witness :
    sampleEnvOk.bootResult = Except.ok 0 ∧
    (((Worker.start sampleWorker sampleEnvOk sampleOptsUser).1.any
        (fun a => a.isCreateSupervisor) = true ↔
      sampleOptsUser.conf.is_user_worker = true) ∧
    (∀ b, Action.handleCreation b ∈
        (Worker.start sampleWorker sampleEnvOk sampleOptsUser).1 →
      b = sampleOptsUser.conf.is_user_worker)) :=
  ⟨rfl, supervisor_created_iff_user_worker_when_boot_ok sampleWorker
    sampleEnvOk sampleOptsUser 0 rfl⟩

theorem fst_eq {p : List Action × Except String Unit} {l : List Action}
    {r : Except String Unit} (h : p = (l, r)) : p.1 = l := by rw [h]

theorem snd_eq {p : List Action × Except String Unit} {l : List Action}
    {r : Except String Unit} (h : p = (l, r)) : p.2 = r := by rw [h]

theorem bootEngine_not_mem_tail (w : Worker) (env : Env)
    (r : Except String WorkerEvents) (o : WorkerContextInitOpts) :
    Action.bootEngine o ∉
      handleResultActions w r ++ poolNotifyActions w env := by
  intro h
  rcases List.mem_append.mp h with h | h
  · rcases handleResultActions_shape w r _ h with ⟨t, ht⟩ | ⟨ev, ht⟩ | ⟨m, ht⟩ <;>
      simp at ht
  · rcases poolNotifyActions_shape w env _ h with ⟨k, ht⟩ | ht <;> simp at ht

theorem createSupervisor_not_mem_tail (w : Worker) (env : Env)
    (r : Except String WorkerEvents) (k : Nat) (p : SupervisorPolicy)
    (m : Bool) (t : Option Nat) :
    Action.createSupervisor k p m t ∉
      handleResultActions w r ++ poolNotifyActions w env := by
  intro h
  rcases List.mem_append.mp h with h | h
  · rcases handleResultActions_shape w r _ h with ⟨u, ht⟩ | ⟨ev, ht⟩ | ⟨s, ht⟩ <;>
      simp at ht
  · rcases poolNotifyActions_shape w env _ h with ⟨u, ht⟩ | ht <;> simp at ht

/-- C5: on every path, the configuration moved into the engine boot call
is exactly the original configuration with the timing/telemetry payload
removed and nothing else changed, and whenever the Supervisor is
created it receives precisely the removed timing payload. -/
theorem timing_stripped_and_delivered_to_supervisor (w : Worker) (env : Env)
    (opts : WorkerContextInitOpts) :
    (∀ o, Action.bootEngine o ∈ (Worker.start w env opts).1 →
      o = { opts with timing := none }) ∧
    Action.bootEngine { opts with timing := none } ∈
      (Worker.start w env opts).1 ∧
    ({ opts with timing := none } : WorkerContextInitOpts).timing = none ∧
    ({ opts with timing := none } : WorkerContextInitOpts).conf = opts.conf ∧
    ({ opts with timing := none } : WorkerContextInitOpts).rest = opts.rest ∧
    (∀ k p m t, Action.createSupervisor k p m t ∈ (Worker.start w env opts).1 →
      t = opts.timing) := by
  rcases start_cases w env opts with htr | htr | ⟨s, htr⟩ | htr <;>
    rw [fst_eq htr] <;>
    refine ⟨?_, by simp, rfl, rfl, rfl, ?_⟩
  case inl.refine_1 =>
    intro o ho
    rcases List.mem_cons.mp ho with h | ho
    · injection h with h
    rcases List.mem_cons.mp ho with h | ho
    · exact absurd h (by simp)
    rcases List.mem_cons.mp ho with h | ho
    · exact absurd h (by simp)
    exact absurd ho (bootEngine_not_mem_tail w env _ o)
  case inl.refine_2 =>
    intro k p m t ho
    rcases List.mem_cons.mp ho with h | ho
    · exact absurd h (by simp)
    rcases List.mem_cons.mp ho with h | ho
    · exact absurd h (by simp)
    rcases List.mem_cons.mp ho with h | ho
    · exact absurd h (by simp)
    exact absurd ho (createSupervisor_not_mem_tail w env _ k p m t)
  case inr.inl.refine_1 =>
    intro o ho
    rcases List.mem_cons.mp ho with h | ho
    · injection h with h
    rcases List.mem_cons.mp ho with h | ho
    · exact absurd h (by simp)
    rcases List.mem_cons.mp ho with h | ho
    · exact absurd h (by simp)
    exact absurd ho (bootEngine_not_mem_tail w env _ o)
  case inr.inl.refine_2 =>
    intro k p m t ho
    rcases List.mem_cons.mp ho with h | ho
    · exact absurd h (by simp)
    rcases List.mem_cons.mp ho with h | ho
    · exact absurd h (by simp)
    rcases List.mem_cons.mp ho with h | ho
    · exact absurd h (by simp)
    exact absurd ho (createSupervisor_not_mem_tail w env _ k p m t)
  case inr.inr.inl.intro.refine_1 =>
    intro o ho
    rcases List.mem_cons.mp ho with h | ho
    · injection h with h
    rcases List.mem_cons.mp ho with h | ho
    · exact absurd h (by simp)
    rcases List.mem_cons.mp ho with h | ho
    · exact absurd h (by simp)
    exact absurd ho (List.not_mem_nil _)
  case inr.inr.inl.intro.refine_2 =>
    intro k p m t ho
    rcases List.mem_cons.mp ho with h | ho
    · exact absurd h (by simp)
    rcases List.mem_cons.mp ho with h | ho
    · exact absurd h (by simp)
    rcases List.mem_cons.mp ho with h | ho
    · injection h with h1 h2 h3 h4
    exact absurd ho (List.not_mem_nil _)
  case inr.inr.inr.refine_1 =>
    intro o ho
    rcases List.mem_cons.mp ho with h | ho
    · injection h with h
    rcases List.mem_cons.mp ho with h | ho
    · exact absurd h (by simp)
    rcases List.mem_cons.mp ho with h | ho
    · exact absurd h (by simp)
    rcases List.mem_cons.mp ho with h | ho
    · exact absurd h (by simp)
    exact absurd ho (bootEngine_not_mem_tail w env _ o)
  case inr.inr.inr.refine_2 =>
    intro k p m t ho
    rcases List.mem_cons.mp ho with h | ho
    · exact absurd h (by simp)
    rcases List.mem_cons.mp ho with h | ho
    · exact absurd h (by simp)
    rcases List.mem_cons.mp ho with h | ho
    · injection h with h1 h2 h3 h4
    rcases List.mem_cons.mp ho with h | ho
    · exact absurd h (by simp)
    exact absurd ho (createSupervisor_not_mem_tail w env _ k p m t)

/-- Witness for C5: in the all-success environment, the supervisor call
carries the original timing payload and the boot call the stripped
configuration. -/
theorem timing_stripped_and_delivered_to_supervisor_witness :
    Action.createSupervisor 7 SupervisorPolicy.wholeLifetime true (some 3) ∈
      (Worker.start sampleWorker sampleEnvOk sampleOptsUser).1 ∧
    (some 3 : Option Nat) = sampleOptsUser.timing ∧
    Action.bootEngine { sampleOptsUser with timing := none } ∈
      (Worker.start sampleWorker sampleEnvOk sampleOptsUser).1 :=
  ⟨by decide,
   (timing_stripped_and_delivered_to_supervisor sampleWorker sampleEnvOk
      sampleOptsUser).2.2.2.2.2 7 SupervisorPolicy.wholeLifetime true (some 3)
      (by decide),
   (timing_stripped_and_delivered_to_supervisor sampleWorker sampleEnvOk
      sampleOptsUser).2.1⟩

theorem handleResultActions_no_poolSend (w : Worker)
    (r : Except String WorkerEvents) :
    ∀ a ∈ handleResultActions w r, a.isPoolSend = false := by
  intro a ha
  rcases handleResultActions_shape w r a ha with ⟨t, rfl⟩ | ⟨ev, rfl⟩ | ⟨m, rfl⟩ <;>
    rfl

/-- C6: when the pool Shutdown send fails because the receiving side is
gone, the failure is logged and otherwise ignored — the send is not
retried (exactly one send appears in the trace), the failure log is the
only action after it, and the task still completes successfully. -/
theorem failed_pool_send_logged_and_ignored (w : Worker) (env : Env)
    (opts : WorkerContextInitOpts) (k : Nat)
    (hk : w.worker_key = some k) (hp : w.pool_msg_tx = true)
    (hfail : env.poolSendOk = false)
    (hsend : Action.poolSend k ∈ (Worker.start w env opts).1) :
    countPoolSend (Worker.start w env opts).1 = 1 ∧
    (∃ t, (Worker.start w env opts).1 =
      t ++ [Action.poolSend k, Action.logPoolSendFailure]) ∧
    (Worker.start w env opts).2 = Except.ok () := by
  have hpna : poolNotifyActions w env =
      [Action.poolSend k, Action.logPoolSendFailure] := by
    rw [poolNotifyActions_of_key_and_tx w env k hk hp, hfail]
    simp
  rcases start_cases w env opts with htr | htr | ⟨s, htr⟩ | htr
  · refine ⟨?_, ⟨Action.bootEngine { opts with timing := none } ::
      Action.bootSignalSend (Except.error "worker boot error") ::
      Action.handleError :: handleResultActions w env.handleErrorResult, ?_⟩,
      snd_eq htr⟩
    · rw [fst_eq htr, hpna]
      simp only [countPoolSend]
      simp [List.countP_cons, List.countP_append, Action.isPoolSend]
      intro a ha
      exact handleResultActions_no_poolSend w env.handleErrorResult a ha
    · rw [fst_eq htr, hpna]
      simp
  · refine ⟨?_, ⟨Action.bootEngine { opts with timing := none } ::
      Action.bootSignalSend (Except.ok ()) ::
      Action.handleCreation false :: handleResultActions w env.handlerResult,
      ?_⟩, snd_eq htr⟩
    · rw [fst_eq htr, hpna]
      simp only [countPoolSend]
      simp [List.countP_cons, List.countP_append, Action.isPoolSend]
      intro a ha
      exact handleResultActions_no_poolSend w env.handlerResult a ha
    · rw [fst_eq htr, hpna]
      simp
  · rw [fst_eq htr] at hsend
    simp at hsend
  · refine ⟨?_, ⟨Action.bootEngine { opts with timing := none } ::
      Action.bootSignalSend (Except.ok ()) ::
      Action.createSupervisor (w.worker_key.getD uuidNil)
        (w.supervisor_policy.getD default) true opts.timing ::
      Action.handleCreation true :: handleResultActions w env.handlerResult,
      ?_⟩, snd_eq htr⟩
    · rw [fst_eq htr, hpna]
      simp only [countPoolSend]
      simp [List.countP_cons, List.countP_append, Action.isPoolSend]
      intro a ha
      exact handleResultActions_no_poolSend w env.handlerResult a ha
    · rw [fst_eq htr, hpna]
      simp

/-- Witness for C6: the all-success environment except that the pool
receiver is gone. -/
theorem failed_pool_send_logged_and_ignored_witness :
    sampleWorker.worker_key = some 7 ∧ sampleWorker.pool_msg_tx = true ∧
    ({ sampleEnvOk with poolSendOk := false } : Env).poolSendOk = false ∧
    Action.poolSend 7 ∈
      (Worker.start sampleWorker { sampleEnvOk with poolSendOk := false }
        sampleOptsUser).1 ∧
    (countPoolSend (Worker.start sampleWorker
        { sampleEnvOk with poolSendOk := false } sampleOptsUser).1 = 1 ∧
      (∃ t, (Worker.start sampleWorker
          { sampleEnvOk with poolSendOk := false } sampleOptsUser).1 =
        t ++ [Action.poolSend 7, Action.logPoolSendFailure]) ∧
      (Worker.start sampleWorker { sampleEnvOk with poolSendOk := false }
        sampleOptsUser).2 = Except.ok ()) :=
  ⟨rfl, rfl, rfl, by decide,
   failed_pool_send_logged_and_ignored sampleWorker
     { sampleEnvOk with poolSendOk := false } sampleOptsUser 7 rfl rfl rfl
     (by decide)⟩

/-- C8: a tenant-isolated worker started without a Worker Identity still
gets a Supervisor, which receives the nil (all-zero) UUID as its
identity, while the end-of-life pool Shutdown message is skipped
entirely because the identity is absent. -/
theorem user_worker_without_key_gets_nil_uuid_supervisor (w : Worker)
    (env : Env) (opts : WorkerContextInitOpts) (rt : Nat)
    (huser : opts.conf.is_user_worker = true) (hkey : w.worker_key = none)
    (hboot : env.bootResult = Except.ok rt) :
    Action.createSupervisor uuidNil (w.supervisor_policy.getD default) true
        opts.timing ∈ (Worker.start w env opts).1 ∧
    ∀ k, Action.poolSend k ∉ (Worker.start w env opts).1 := by
  have h := start_trace_of_boot_ok w env opts rt hboot
  rw [huser] at h
  simp only [if_true] at h
  rw [hkey] at h
  simp only [Option.getD_none] at h
  have hpna : poolNotifyActions w env = [] := poolNotifyActions_of_no_key w env hkey
  rcases hs : env.supervisorResult with s | c <;> rw [hs] at h
  · constructor
    · rw [fst_eq h]
      simp
    · intro k hmem
      rw [fst_eq h] at hmem
      simp at hmem
  · constructor
    · rw [fst_eq h]
      simp
    · intro k hmem
      rw [fst_eq h] at hmem
      rcases List.mem_cons.mp hmem with h1 | hmem
      · exact absurd h1 (by simp)
      rcases List.mem_cons.mp hmem with h1 | hmem
      · exact absurd h1 (by simp)
      rcases List.mem_cons.mp hmem with h1 | hmem
      · exact absurd h1 (by simp)
      rcases List.mem_cons.mp hmem with h1 | hmem
      · exact absurd h1 (by simp)
      rcases List.mem_append.mp hmem with hmem | hmem
      · rcases handleResultActions_shape w _ _ hmem with ⟨u, h1⟩ | ⟨ev, h1⟩ | ⟨m, h1⟩ <;>
          simp at h1
      · rw [hpna] at hmem
        exact absurd hmem (List.not_mem_nil _)

/-- Witness for C8: a user worker without identity in the all-success
environment. -/
theorem user_worker_without_key_gets_nil_uuid_supervisor_witness :
    sampleOptsUser.conf.is_user_worker = true ∧
    ({ sampleWorker with worker_key := none } : Worker).worker_key = none ∧
    sampleEnvOk.bootResult = Except.ok 0 ∧
    (Action.createSupervisor uuidNil
        (({ sampleWorker with worker_key := none } : Worker).supervisor_policy.getD
          default) true sampleOptsUser.timing ∈
      (Worker.start { sampleWorker with worker_key := none } sampleEnvOk
        sampleOptsUser).1 ∧
    ∀ k, Action.poolSend k ∉
      (Worker.start { sampleWorker with worker_key := none } sampleEnvOk
        sampleOptsUser).1) :=
  ⟨rfl, rfl, rfl,
   user_worker_without_key_gets_nil_uuid_supervisor
     { sampleWorker with worker_key := none } sampleEnvOk sampleOptsUser 0
     rfl rfl rfl⟩

/-- Counterexample to C1 as stated: for a worker with both an identity
and a pool endpoint, on the path where supervisor creation fails the
spawned task aborts early and NO Shutdown(identity) message is ever sent,
so the send does not happen exactly once on every path. -/
theorem pool_shutdown_skipped_on_supervisor_failure_cex :
    sampleWorker.worker_key = some 7 ∧ sampleWorker.pool_msg_tx = true ∧
    countPoolSend (Worker.start sampleWorker sampleEnvSupFail
      sampleOptsUser).1 = 0 := by
  decide

/-- C1 (amended): for every worker with an identity and a pool endpoint,
provided supervisor creation does not fail (on that path the spawned task
aborts before the notification step and no Shutdown is sent), exactly one
Shutdown(identity) message is sent on the pool channel, it comes after
the Termination Outcome (or synthesized error result) has been handled
and forwarded, and nothing follows it except the log of its own failed
delivery. -/
theorem pool_shutdown_sent_once_last_after_handling (w : Worker) (env : Env)
    (opts : WorkerContextInitOpts) (k : Nat)
    (hk : w.worker_key = some k) (hp : w.pool_msg_tx = true)
    (hsup : opts.conf.is_user_worker = true → env.bootResult.isOk = true →
      env.supervisorResult.isOk = true) :
    ∃ t r, (Worker.start w env opts).1 =
        t ++ (handleResultActions w r ++
          Action.poolSend k ::
            (if env.poolSendOk then [] else [Action.logPoolSendFailure])) ∧
      countPoolSend t = 0 ∧ countPoolSend (handleResultActions w r) = 0 := by
  have hpna : poolNotifyActions w env =
      Action.poolSend k ::
        (if env.poolSendOk then [] else [Action.logPoolSendFailure]) :=
    poolNotifyActions_of_key_and_tx w env k hk hp
  rcases hb : env.bootResult with e | rt
  · have h := start_trace_of_boot_error w env opts e hb
    refine ⟨[Action.bootEngine { opts with timing := none },
      Action.bootSignalSend (Except.error "worker boot error"),
      Action.handleError], env.handleErrorResult, ?_, ?_,
      countPoolSend_handleResultActions w env.handleErrorResult⟩
    · rw [fst_eq h, hpna]
      simp
    · simp [countPoolSend, List.countP_cons, Action.isPoolSend]
  · have h := start_trace_of_boot_ok w env opts rt hb
    cases hu : opts.conf.is_user_worker
    · rw [hu] at h
      simp only [Bool.false_eq_true, if_false] at h
      refine ⟨[Action.bootEngine { opts with timing := none },
        Action.bootSignalSend (Except.ok ()),
        Action.handleCreation false], env.handlerResult, ?_, ?_,
        countPoolSend_handleResultActions w env.handlerResult⟩
      · rw [fst_eq h, hpna]
        simp
      · simp [countPoolSend, List.countP_cons, Action.isPoolSend]
    · rw [hu] at h
      simp only [if_true] at h
      have hso : env.supervisorResult.isOk = true := by
        apply hsup hu
        rw [hb]
        rfl
      rcases hs : env.supervisorResult with s | c
      · rw [hs] at hso
        simp [Except.isOk, Except.toBool] at hso
      · rw [hs] at h
        refine ⟨[Action.bootEngine { opts with timing := none },
          Action.bootSignalSend (Except.ok ()),
          Action.createSupervisor (w.worker_key.getD uuidNil)
            (w.supervisor_policy.getD default) true opts.timing,
          Action.handleCreation true], env.handlerResult, ?_, ?_,
          countPoolSend_handleResultActions w env.handlerResult⟩
        · rw [fst_eq h, hpna]
          simp
        · simp [countPoolSend, List.countP_cons, Action.isPoolSend]

/-- Witness for C1 (amended): a user worker in the all-success
environment. -/
theorem pool_shutdown_sent_once_last_after_handling_witness :
    sampleWorker.worker_key = some 7 ∧ sampleWorker.pool_msg_tx = true ∧
    (sampleOptsUser.conf.is_user_worker = true →
      sampleEnvOk.bootResult.isOk = true →
      sampleEnvOk.supervisorResult.isOk = true) ∧
    (∃ t r, (Worker.start sampleWorker sampleEnvOk sampleOptsUser).1 =
        t ++ (handleResultActions sampleWorker r ++
          Action.poolSend 7 ::
            (if sampleEnvOk.poolSendOk then []
             else [Action.logPoolSendFailure])) ∧
      countPoolSend t = 0 ∧
      countPoolSend (handleResultActions sampleWorker r) = 0) :=
  ⟨rfl, rfl, fun _ _ => rfl,
   pool_shutdown_sent_once_last_after_handling sampleWorker sampleEnvOk
     sampleOptsUser 7 rfl rfl (fun _ _ => rfl)⟩

/- ## Claims about the runtime-metrics surface -/

/-- C9: every invocation of `op_runtime_metrics` reports the four
worker/request counters (`active_user_workers_count`,
`retired_user_workers_count`, `received_requests_count`,
`handled_requests_count`) as zero; only the heap-statistics field is
populated from the metric source. -/
theorem runtime_metrics_counters_always_zero (source : RuntimeMetricSource) :
    (op_runtime_metrics source).active_user_workers_count = 0 ∧
    (op_runtime_metrics source).retired_user_workers_count = 0 ∧
    (op_runtime_metrics source).received_requests_count = 0 ∧
    (op_runtime_metrics source).handled_requests_count = 0 ∧
    (op_runtime_metrics source).heap_stats = source.get_heap_statistics :=
  ⟨rfl, rfl, rfl, rfl, rfl⟩

/-- C7: a heap-statistics snapshot request through the thread-safe
interrupt mechanism of the engine yields no statistics when the interrupt
cannot be scheduled (`request_interrupt` returned `false`); when it can
be scheduled, the requester obtains exactly the statistics pushed by the
interrupted engine thread, or nothing if the interrupt callback never
fires. -/
theorem heap_statistics_request_best_effort (source : WorkerMetricSource) :
    (source.canScheduleInterrupt = false →
      request_heap_statistics_fn (some source) = none) ∧
    (source.canScheduleInterrupt = true →
      request_heap_statistics_fn (some source) =
        if source.interruptRuns then some source.heapStats else none) := by
  constructor <;> intro h <;> simp [request_heap_statistics_fn, h]

/-- Witness for C7: a source whose interrupt cannot be scheduled yields
no statistics. -/
theorem heap_statistics_request_best_effort_witness :
    ({ canScheduleInterrupt := false, interruptRuns := true,
       heapStats := {} } : WorkerMetricSource).canScheduleInterrupt = false ∧
    request_heap_statistics_fn
      (some { canScheduleInterrupt := false, interruptRuns := true,
              heapStats := {} }) = none :=
  ⟨rfl, (heap_statistics_request_best_effort _).1 rfl⟩

/- ## Claims about classic Diffie-Hellman -/

/-- C10: for every well-known MODP group, `DiffieHellman.group` draws its
private exponent with `EXPONENT_SIZE / 8` random bits, and the public key
is the generator raised to that exponent modulo the group modulus; for
the 1536-bit group the documented exponent size is 192 bits, so only
192 / 8 = 24 random bits are drawn. -/
theorem dh_group_exponent_bits_and_public_key :
    (∀ G, G ∈ wellKnownModpGroups → ∀ rng : Nat → Nat,
      (DiffieHellman.group G rng).private_key =
          rng (G.EXPONENT_SIZE / 8) % 2 ^ (G.EXPONENT_SIZE / 8) ∧
      (DiffieHellman.group G rng).private_key < 2 ^ (G.EXPONENT_SIZE / 8) ∧
      (DiffieHellman.group G rng).public_key =
        G.GENERATOR ^ (DiffieHellman.group G rng).private_key %
          biguintFromSlice G.MODULUS) ∧
    Modp1536.EXPONENT_SIZE = 192 ∧ Modp1536.EXPONENT_SIZE / 8 = 24 := by
  refine ⟨?_, rfl, rfl⟩
  intro G _ rng
  refine ⟨rfl, ?_, rfl⟩
  show rng (G.EXPONENT_SIZE / 8) % 2 ^ (G.EXPONENT_SIZE / 8) <
    2 ^ (G.EXPONENT_SIZE / 8)
  exact Nat.mod_lt _ (Nat.pow_pos (by norm_num))

/-- Witness for C10: the 1536-bit group, with a concrete randomness
oracle answering 5. -/
theorem dh_group_exponent_bits_and_public_key_witness :
    Modp1536 ∈ wellKnownModpGroups ∧
    ((DiffieHellman.group Modp1536 (fun _ => 5)).private_key =
        (fun _ : Nat => 5) (Modp1536.EXPONENT_SIZE / 8) %
          2 ^ (Modp1536.EXPONENT_SIZE / 8) ∧
      (DiffieHellman.group Modp1536 (fun _ => 5)).private_key <
        2 ^ (Modp1536.EXPONENT_SIZE / 8) ∧
      (DiffieHellman.group Modp1536 (fun _ => 5)).public_key =
        Modp1536.GENERATOR ^
            (DiffieHellman.group Modp1536 (fun _ => 5)).private_key %
          biguintFromSlice Modp1536.MODULUS) :=
  ⟨by simp [wellKnownModpGroups],
   dh_group_exponent_bits_and_public_key.1 Modp1536
     (by simp [wellKnownModpGroups]) (fun _ => 5)⟩

end EdgeRuntime
